import Mathlib

/-!
# GoPostStuff: the command-line entry point `main` (gopoststuff.go)

A shallow embedding of `func main()` of `gopoststuff.go`.

`main` is straight-line glue around library calls, so the embedding is a pure
function of

* the parsed command line (`Flags`: the values the `flag` package holds after
  `flag.Parse()` has returned, and `flag.Args()`), and
* an environment `Env` that answers every call `main` makes outside of the
  file (`os.Stat`, `user.Current`, `filepath.Join`, `gcfg.ReadFileInto`,
  `runtime.NumCPU`, `runtime.GOMAXPROCS`, `os.Create`, `Spawner`),

and it returns a `Run`: the ordered trace of the externally visible calls
`main` performed, the process exit status, and what the posting run reported
when `Spawner` was reached.
-/

namespace GoPostStuff

/-! ## Data model -/

/-- The constant `GPS_VERSION` (gopoststuff.go:15-17). -/
def GPS_VERSION : String := "0.3.0-git"

/-- The struct `Config.Global` (gopoststuff.go:34-40); `int64` fields are integers. -/
structure GlobalT where
  From : String
  DefaultGroup : String
  SubjectPrefix : String
  ArticleSize : Int
  ChunkSize : Int
deriving DecidableEq, Repr

/-- The anonymous struct behind `Config.Server` entries (gopoststuff.go:42-50). -/
structure ServerT where
  Address : String
  Port : Int
  Username : String
  Password : String
  Connections : Int
  TLS : Bool
  InsecureSSL : Bool
deriving DecidableEq, Repr

/-- The type of the global variable `Config` (gopoststuff.go:33-51).  The Go map
`map[string]*struct` is kept as an association list. -/
structure ConfigT where
  Global : GlobalT
  Server : List (String × ServerT)
deriving DecidableEq, Repr

/-- The zero value a Go global of type `ConfigT` holds before `main` runs. -/
def ConfigT.zero : ConfigT :=
  { Global := { From := "", DefaultGroup := "", SubjectPrefix := "", ArticleSize := 0, ChunkSize := 0 },
    Server := [] }

/-- The command-line flag variables (gopoststuff.go:20-27) with the values they
hold once `flag.Parse()` has returned, together with `flag.Args()`. -/
structure Flags where
  configFlag : String := ""
  dirSubjectFlag : Bool := false
  groupFlag : String := ""
  subjectFlag : String := ""
  verboseFlag : Bool := false
  cpuProfileFlag : String := ""
  allCpuFlag : Bool := false
  versionFlag : Bool := false
  Args : List String := []
deriving DecidableEq, Repr

/-- What `main` uses of an `os.FileInfo`: the answer of `st.IsDir()`. -/
structure FileInfo where
  IsDir : Bool
deriving DecidableEq, Repr

/-- What `main` uses of a `*user.User`: the field `HomeDir`. -/
structure User where
  HomeDir : String
deriving DecidableEq, Repr

/-- Modelled from the spec: the terminal summary of a posting run.  `Spawner` is
declared in another file of the repository; the spec describes what the posting
entry point reports as "counts of succeeded/failed jobs and per-job errors". -/
structure Summary where
  succeeded : Nat
  failed : Nat
  errors : List (String × String)
deriving DecidableEq, Repr

/-- Logging levels used by `main` (`logging.DEBUG`, `logging.INFO`). -/
inductive Level where
  | DEBUG
  | INFO
deriving DecidableEq, Repr

/-- Everything outside the file that `main` calls.  Errors are carried as their
`Error()` text. -/
structure Env where
  /-- Answer of `os.Stat(arg)`. -/
  Stat : String → Except String FileInfo
  /-- Answer of `user.Current()`. -/
  Current : Except String User
  /-- The library function `filepath.Join`. -/
  Join : List String → String
  /-- Effect of `gcfg.ReadFileInto(&Config, cfgFile)`: the contents of `Config`
  afterwards, and the returned error (`none` is `nil`). -/
  ReadFileInto : ConfigT → String → ConfigT × Option String
  /-- Answer of `runtime.NumCPU()`. -/
  NumCPU : Nat
  /-- The GOMAXPROCS setting the process starts with. -/
  maxProcs : Nat
  /-- Answer of `os.Create(name)`: the returned error (`none` is `nil`). -/
  Create : String → Option String
  /-- The posting run started by `Spawner(filenames)`.  `Spawner` reads the global
  flag variables and the global `Config`, so both are passed explicitly. -/
  Spawner : Flags → ConfigT → List String → Summary

/-- The externally visible calls of `main`, in the order they are made. -/
inductive Event where
  /-- Text written to standard output by `fmt.Println`. -/
  | Println (out : String)
  | SetFormatter (format : String)
  | SetLevel (level : Level) (module : String)
  | Info (msg : String)
  | Debug (msg : String)
  /-- A call of `log.Fatal` or `log.Fatalf` with the formatted message. -/
  | Fatal (msg : String)
  | Stat (name : String)
  | Current
  | ReadFileInto (cfgFile : String)
  | GOMAXPROCS (n : Nat)
  | Create (name : String)
  | StartCPUProfile
  | StopCPUProfile
  /-- The call `Spawner(filenames)`, with the global `Config` it can see. -/
  | Spawner (config : ConfigT) (filenames : List String)
deriving DecidableEq, Repr

/-- One execution of `main`. -/
structure Run where
  /-- The calls made, oldest first. -/
  trace : List Event
  /-- The process exit status. -/
  exit : Nat
  /-- What the posting run reported, when `Spawner` was called. -/
  reported : Option Summary
deriving DecidableEq, Repr

/-! ## Library behaviour used by `main` -/

/-- The text `fmt.Println` writes: the operands separated by one space, then a newline. -/
def Println (operands : List String) : String :=
  " ".intercalate operands ++ "\n"

/-- The call `log.Fatal(msg)` of go-logging after the calls in `t`: the message is
logged and the process exits with status 1. -/
def Fatal (t : List Event) (msg : String) : Run :=
  { trace := t ++ [Event.Fatal msg], exit := 1, reported := none }

/-- The call `runtime.GOMAXPROCS(n)` with current setting `cur`: the new setting
(unchanged when `n < 1`) and the returned previous setting. -/
def GOMAXPROCS (cur n : Nat) : Nat × Nat :=
  (if n < 1 then cur else n, cur)

/-! ## `main` -/

/-- The loop `for _, arg := range flag.Args()` (gopoststuff.go:91-102): the
`os.Stat` calls made, and the message of the `log.Fatalf` that ended the loop, if
one did. -/
def checkArgs (env : Env) (dirSubjectFlag : Bool) : List String → List Event × Option String
  | [] => ([], none)
  | arg :: rest =>
    match env.Stat arg with
    | .error err => ([Event.Stat arg], some ("stat " ++ arg ++ ": " ++ err))
    | .ok st =>
      if dirSubjectFlag && !st.IsDir then
        ([Event.Stat arg], some ("-d option used but not a directory: " ++ arg))
      else
        let r := checkArgs env dirSubjectFlag rest
        (Event.Stat arg :: r.1, r.2)

/-- The block that sets `cfgFile` (gopoststuff.go:104-115): the calls made, and
either the message of `log.Fatal(err)` or the value of `cfgFile`.
Go's `len(s) > 0` counts bytes; a string has no byte exactly when it has no
character. -/
def cfgFile (env : Env) (flags : Flags) : List Event × Except String String :=
  if flags.configFlag.length > 0 then
    ([], .ok flags.configFlag)
  else
    match env.Current with
    | .error err => ([Event.Current], .error err)
    | .ok u => ([Event.Current], .ok (env.Join [u.HomeDir, ".gopoststuff.conf"]))

/-- The function `main` (gopoststuff.go:53-152). -/
def main (env : Env) (flags : Flags) : Run :=
  -- Check for version argument
  if flags.versionFlag then
    { trace := [Event.Println (Println ["Version: ", GPS_VERSION])], exit := 0, reported := none }
  else
    -- Set up logging
    let t : List Event :=
      [ Event.SetFormatter " %\x7blevel: -8s\x7d  %\x7bmessage\x7d",
        Event.SetLevel (if flags.verboseFlag then Level.DEBUG else Level.INFO) "gopoststuff",
        Event.Info "gopoststuff starting..." ]
    -- Make sure -d or -s was specified
    if flags.subjectFlag.length == 0 && !flags.dirSubjectFlag then
      Fatal t "Need to specify -d or -s option, try gopoststuff --help"
    -- Check arguments
    else if flags.Args.length == 0 then
      Fatal t "No filenames provided"
    else
      -- Check that all supplied arguments exist
      match checkArgs env flags.dirSubjectFlag flags.Args with
      | (stats, some msg) => Fatal (t ++ stats) msg
      | (stats, none) =>
        let t := t ++ stats
        -- Load config file
        match cfgFile env flags with
        | (evs, .error err) => Fatal (t ++ evs) err
        | (evs, .ok cfgFile) =>
          let t := t ++ evs ++ [Event.Debug ("Reading config from " ++ cfgFile)]
          match env.ReadFileInto ConfigT.zero cfgFile with
          | (_, some err) => Fatal (t ++ [Event.ReadFileInto cfgFile]) err
          | (Config, none) =>
            let t := t ++ [Event.ReadFileInto cfgFile]
            -- Fix default values
            let Config : ConfigT :=
              if Config.Global.ChunkSize == 0 then
                { Config with Global := { Config.Global with ChunkSize := 10240 } }
              else Config
            -- Maybe set GOMAXPROCS
            let procs : Nat :=
              if flags.allCpuFlag then (GOMAXPROCS env.maxProcs env.NumCPU).1 else env.maxProcs
            let t := t ++ (if flags.allCpuFlag then [Event.GOMAXPROCS env.NumCPU] else [])
              ++ [Event.Info ("Using " ++ toString (GOMAXPROCS procs 0).2 ++ "/"
                    ++ toString env.NumCPU ++ " CPUs")]
            -- Set up CPU profiling
            if flags.cpuProfileFlag != "" then
              match env.Create flags.cpuProfileFlag with
              | some err => Fatal (t ++ [Event.Create flags.cpuProfileFlag]) err
              | none =>
                -- Start the magical spawner
                { trace := t ++ [Event.Create flags.cpuProfileFlag, Event.StartCPUProfile,
                      Event.Spawner Config flags.Args,
                      Event.Info ("CPU profiling data saved to " ++ flags.cpuProfileFlag),
                      Event.StopCPUProfile],
                  exit := 0,
                  reported := some (env.Spawner flags Config flags.Args) }
            else
              -- Start the magical spawner
              { trace := t ++ [Event.Spawner Config flags.Args],
                exit := 0,
                reported := some (env.Spawner flags Config flags.Args) }

/-- The calls `main` makes while setting up logging (gopoststuff.go:70-79). -/
def loggingSetup (flags : Flags) : List Event :=
  [ Event.SetFormatter " %\x7blevel: -8s\x7d  %\x7bmessage\x7d",
    Event.SetLevel (if flags.verboseFlag then Level.DEBUG else Level.INFO) "gopoststuff",
    Event.Info "gopoststuff starting..." ]

/-! ## Observations on a run -/

/-- The `Spawner` calls of a trace: the visible `Config` and the file names passed. -/
def spawnerCalls : List Event → List (ConfigT × List String)
  | [] => []
  | Event.Spawner c fs :: t => (c, fs) :: spawnerCalls t
  | _ :: t => spawnerCalls t

/-- The names passed to `os.Stat`, in call order. -/
def statCalls : List Event → List String
  | [] => []
  | Event.Stat n :: t => n :: statCalls t
  | _ :: t => statCalls t

/-- The paths passed to `gcfg.ReadFileInto`, in call order. -/
def readCalls : List Event → List String
  | [] => []
  | Event.ReadFileInto p :: t => p :: readCalls t
  | _ :: t => readCalls t

/-- The number of `user.Current()` calls. -/
def currentCalls : List Event → Nat
  | [] => 0
  | Event.Current :: t => currentCalls t + 1
  | _ :: t => currentCalls t

/-- The messages of the `log.Fatal`/`log.Fatalf` calls, in call order. -/
def fatalCalls : List Event → List String
  | [] => []
  | Event.Fatal m :: t => m :: fatalCalls t
  | _ :: t => fatalCalls t

/-- The texts written by `fmt.Println`, in call order. -/
def printed : List Event → List String
  | [] => []
  | Event.Println s :: t => s :: printed t
  | _ :: t => printed t

/-- The run called `Spawner`. -/
def invokesSpawner (r : Run) : Prop := spawnerCalls r.trace ≠ []

instance (r : Run) : Decidable (invokesSpawner r) := by
  unfold invokesSpawner; infer_instance

/-- The message of the `log.Fatal`/`log.Fatalf` call that ended the run, if the
last call of the run is one. -/
def fatalMessage (r : Run) : Option String :=
  match r.trace.getLast? with
  | some (Event.Fatal msg) => some msg
  | _ => none

/-- The run ended in `log.Fatal`/`log.Fatalf` with message `msg`: it is the only
fatal call, it is the last call, and the exit status is 1. -/
def terminatesFatallyWith (r : Run) (msg : String) : Prop :=
  r.exit = 1 ∧ fatalMessage r = some msg ∧ fatalCalls r.trace = [msg]

instance (r : Run) (msg : String) : Decidable (terminatesFatallyWith r msg) := by
  unfold terminatesFatallyWith; infer_instance

/-- The run ended in `log.Fatal`/`log.Fatalf`: the last call of the run is the one
fatal call and the exit status is 1. -/
def terminatesFatally (r : Run) : Prop :=
  r.exit = 1 ∧ fatalMessage r ≠ none ∧ (fatalCalls r.trace).length = 1

instance (r : Run) : Decidable (terminatesFatally r) := by
  unfold terminatesFatally; infer_instance

/-- The stat oracle answers `os.Stat(arg)` without error. -/
def statOk (env : Env) (arg : String) : Bool :=
  match env.Stat arg with
  | .ok _ => true
  | .error _ => false

/-- The stat oracle answers `os.Stat(arg)` without error and with a directory. -/
def isDirectory (env : Env) (arg : String) : Bool :=
  match env.Stat arg with
  | .ok st => st.IsDir
  | .error _ => false

/-- The argument stats without error and, when `-d` is set, is a directory. -/
def argOk (env : Env) (dirSubjectFlag : Bool) (arg : String) : Prop :=
  statOk env arg = true ∧ (dirSubjectFlag = true → isDirectory env arg = true)

instance (env : Env) (d : Bool) (arg : String) : Decidable (argOk env d arg) := by
  unfold argOk; infer_instance

/-- The command line passes the argument checks of gopoststuff.go:64-102, so
that `main` reaches the "Load config file" block: `-version` unset, `-s` non-empty
or `-d` set, at least one positional argument, every positional argument stats
without error and is a directory when `-d` is set. -/
def argsValid (env : Env) (flags : Flags) : Prop :=
  flags.versionFlag = false ∧ (flags.subjectFlag ≠ "" ∨ flags.dirSubjectFlag = true) ∧
    flags.Args ≠ [] ∧ ∀ arg ∈ flags.Args, argOk env flags.dirSubjectFlag arg

instance (env : Env) (flags : Flags) : Decidable (argsValid env flags) := by
  unfold argsValid; infer_instance

/-- The fix of default values (gopoststuff.go:124-127) applied to the
configuration read from the file. -/
def fixDefaults (Config : ConfigT) : ConfigT :=
  if Config.Global.ChunkSize == 0 then
    { Config with Global := { Config.Global with ChunkSize := 10240 } }
  else Config

/-- The conditions under which `main` reaches the call of `Spawner`: the command
line passes the argument checks, `cfgFile` is set, the config file is read without
error and, when `-cpuprofile` is non-empty, the profile file is created. -/
def reachesSpawner (env : Env) (flags : Flags) : Prop :=
  argsValid env flags ∧ ∃ p, (cfgFile env flags).2 = .ok p ∧
    (env.ReadFileInto ConfigT.zero p).2 = none ∧
    (flags.cpuProfileFlag ≠ "" → env.Create flags.cpuProfileFlag = none)

/-- The number of failed jobs the posting run reported (0 when `Spawner` was not called). -/
def failedJobs (r : Run) : Nat :=
  match r.reported with
  | some s => s.failed
  | none => 0

/-- Exactly one of a subject string (`-s` non-empty) and directory-subject mode
(`-d`) is supplied. -/
def exactlyOneSubjectSource (flags : Flags) : Prop :=
  (flags.subjectFlag ≠ "" ∧ flags.dirSubjectFlag = false) ∨
    (flags.subjectFlag = "" ∧ flags.dirSubjectFlag = true)

instance (flags : Flags) : Decidable (exactlyOneSubjectSource flags) := by
  unfold exactlyOneSubjectSource; infer_instance

/-! ## Concrete environments and command lines -/

/-- An environment with a directory `/data`, a file `/data/a.bin`, a user with
home `/home/u`, and a config file that sets only the sender. -/
def env0 : Env :=
  { Stat := fun p =>
      if p = "/data" then .ok { IsDir := true }
      else if p = "/data/a.bin" then .ok { IsDir := false }
      else .error "no such file or directory",
    Current := .ok { HomeDir := "/home/u" },
    Join := fun es => "/".intercalate es,
    ReadFileInto := fun c p =>
      if p = "/home/u/.gopoststuff.conf" ∨ p = "/etc/gps.conf" then
        ({ c with Global := { c.Global with From := "poster@example.org" } }, none)
      else (c, some "open: no such file or directory"),
    NumCPU := 4,
    maxProcs := 1,
    Create := fun p => if p = "/tmp/prof" then none else some "permission denied",
    Spawner := fun _ _ fs => { succeeded := 0, failed := fs.length, errors := [] } }

/-- `gopoststuff -s holiday /data/a.bin`. -/
def cmdSubject : Flags := { subjectFlag := "holiday", Args := ["/data/a.bin"] }

/-- `gopoststuff -d /data`. -/
def cmdDir : Flags := { dirSubjectFlag := true, Args := ["/data"] }

/-- `gopoststuff -d /data /data/a.bin`: the second path is not a directory. -/
def cmdDirOnFile : Flags := { dirSubjectFlag := true, Args := ["/data", "/data/a.bin"] }

/-- `gopoststuff -s holiday -d /data`: both subject sources at once. -/
def cmdBoth : Flags := { subjectFlag := "holiday", dirSubjectFlag := true, Args := ["/data"] }

/-- `gopoststuff -version -s holiday /nonexistent`. -/
def cmdVersion : Flags := { versionFlag := true, subjectFlag := "holiday", Args := ["/nonexistent"] }

/-- `gopoststuff` with no flag and no argument. -/
def cmdEmpty : Flags := {}

/-- `gopoststuff -s holiday` with no argument. -/
def cmdNoFiles : Flags := { subjectFlag := "holiday" }

/-- `gopoststuff /data/a.bin`: neither `-s` nor `-d`. -/
def cmdNoSubject : Flags := { Args := ["/data/a.bin"] }

/-- `gopoststuff -c /etc/missing.conf -s holiday /data/a.bin`: the config file does not exist. -/
def cmdBadConfig : Flags :=
  { configFlag := "/etc/missing.conf", subjectFlag := "holiday", Args := ["/data/a.bin"] }

/-- `gopoststuff -c /etc/gps.conf -cpuprofile /tmp/prof -allcpus -s holiday /data /data/a.bin`. -/
def cmdFull : Flags :=
  { configFlag := "/etc/gps.conf", cpuProfileFlag := "/tmp/prof", allCpuFlag := true,
    subjectFlag := "holiday", Args := ["/data", "/data/a.bin"] }

/-- The environment `env0` for a process whose current user cannot be determined. -/
def envNoUser : Env := { env0 with Current := .error "user: Current not implemented" }

/-! ## Observations distribute over concatenated traces -/

theorem spawnerCalls_append (a b : List Event) :
    spawnerCalls (a ++ b) = spawnerCalls a ++ spawnerCalls b := by
  induction a with
  | nil => rfl
  | cons e t ih => cases e <;> simp [spawnerCalls, ih]

theorem statCalls_append (a b : List Event) :
    statCalls (a ++ b) = statCalls a ++ statCalls b := by
  induction a with
  | nil => rfl
  | cons e t ih => cases e <;> simp [statCalls, ih]

theorem readCalls_append (a b : List Event) :
    readCalls (a ++ b) = readCalls a ++ readCalls b := by
  induction a with
  | nil => rfl
  | cons e t ih => cases e <;> simp [readCalls, ih]

theorem currentCalls_append (a b : List Event) :
    currentCalls (a ++ b) = currentCalls a + currentCalls b := by
  induction a with
  | nil => simp [currentCalls]
  | cons e t ih => cases e <;> simp [currentCalls, ih]; omega

theorem fatalCalls_append (a b : List Event) :
    fatalCalls (a ++ b) = fatalCalls a ++ fatalCalls b := by
  induction a with
  | nil => rfl
  | cons e t ih => cases e <;> simp [fatalCalls, ih]

/-! ## The argument loop -/

/-- The loop only calls `os.Stat`. -/
theorem checkArgs_calls (env : Env) (d : Bool) (args : List String) :
    spawnerCalls (checkArgs env d args).1 = [] ∧ readCalls (checkArgs env d args).1 = [] ∧
      currentCalls (checkArgs env d args).1 = 0 ∧ fatalCalls (checkArgs env d args).1 = [] := by
  induction args with
  | nil => simp [checkArgs, spawnerCalls, readCalls, currentCalls, fatalCalls]
  | cons a rest ih =>
    unfold checkArgs
    split
    · simp [spawnerCalls, readCalls, currentCalls, fatalCalls]
    · split
      · simp [spawnerCalls, readCalls, currentCalls, fatalCalls]
      · simpa [spawnerCalls, readCalls, currentCalls, fatalCalls] using ih

/-- The loop runs to its end exactly when every argument passes the check. -/
theorem checkArgs_none_iff (env : Env) (d : Bool) (args : List String) :
    (checkArgs env d args).2 = none ↔ ∀ arg ∈ args, argOk env d arg := by
  induction args with
  | nil => simp [checkArgs]
  | cons a rest ih =>
    rw [List.forall_mem_cons, ← ih, checkArgs]
    cases h : env.Stat a with
    | error err => simp [argOk, statOk, h]
    | ok st =>
      cases d <;> cases hs : st.IsDir <;> simp [argOk, statOk, isDirectory, h, hs]

/-- A loop that runs to its end has called `os.Stat` on every argument, in order. -/
theorem checkArgs_statCalls (env : Env) (d : Bool) (args : List String)
    (h : (checkArgs env d args).2 = none) : statCalls (checkArgs env d args).1 = args := by
  induction args with
  | nil => simp [checkArgs, statCalls]
  | cons a rest ih =>
    unfold checkArgs at h ⊢
    cases hst : env.Stat a with
    | error err => simp [hst] at h
    | ok st =>
      by_cases hc : (d && !st.IsDir) = true
      · simp [hst, hc] at h
      · simp [hst, hc] at h ⊢
        simp [statCalls, ih h]

/-- The block setting `cfgFile` calls neither `Spawner`, `os.Stat`, the config
reader nor `log.Fatal` itself. -/
theorem cfgFile_calls (env : Env) (flags : Flags) :
    spawnerCalls (cfgFile env flags).1 = [] ∧ readCalls (cfgFile env flags).1 = [] ∧
      fatalCalls (cfgFile env flags).1 = [] ∧ statCalls (cfgFile env flags).1 = [] := by
  unfold cfgFile
  split
  · simp [spawnerCalls, readCalls, fatalCalls, statCalls]
  · split <;> simp [spawnerCalls, readCalls, fatalCalls, statCalls]

/-- Go's `len(s) == 0` holds exactly for the empty string. -/
theorem length_eq_zero_iff (s : String) : s.length = 0 ↔ s = "" := by
  constructor
  · intro h
    have : s.data = [] := List.length_eq_zero.mp h
    exact String.ext this
  · rintro rfl
    rfl

/-! ## The fatal exit -/

theorem Fatal_exit (t : List Event) (msg : String) : (Fatal t msg).exit = 1 := rfl

theorem Fatal_trace (t : List Event) (msg : String) :
    (Fatal t msg).trace = t ++ [Event.Fatal msg] := rfl

theorem Fatal_fatalMessage (t : List Event) (msg : String) :
    fatalMessage (Fatal t msg) = some msg := by
  simp [fatalMessage, Fatal]

theorem Fatal_terminatesFatallyWith (t : List Event) (msg : String) (h : fatalCalls t = []) :
    terminatesFatallyWith (Fatal t msg) msg := by
  simp [terminatesFatallyWith, Fatal_exit, Fatal_fatalMessage, Fatal_trace, fatalCalls_append,
    fatalCalls, h]

theorem terminatesFatally_of_with (r : Run) (msg : String) (h : terminatesFatallyWith r msg) :
    terminatesFatally r := by
  obtain ⟨h1, h2, h3⟩ := h
  simp [terminatesFatally, h1, h2, h3]

theorem Fatal_not_invokesSpawner (t : List Event) (msg : String) (h : spawnerCalls t = []) :
    ¬ invokesSpawner (Fatal t msg) := by
  simp [invokesSpawner, Fatal_trace, spawnerCalls_append, spawnerCalls, h]

/-! ## The paths through `main` -/

/-- The test of gopoststuff.go:82 fails exactly when `-s` is non-empty or `-d` is set. -/
theorem subject_test (flags : Flags) :
    (flags.subjectFlag.length = 0 ∧ flags.dirSubjectFlag = false) ↔
      ¬ (flags.subjectFlag ≠ "" ∨ flags.dirSubjectFlag = true) := by
  rw [length_eq_zero_iff]
  cases flags.dirSubjectFlag <;> simp

/-- Path 1: `-version` (gopoststuff.go:64-68). -/
theorem main_version (env : Env) (flags : Flags) (hv : flags.versionFlag = true) :
    main env flags =
      { trace := [Event.Println "Version:  0.3.0-git\n"], exit := 0, reported := none } := by
  unfold main
  simp [hv]
  decide

/-- Path 2: neither `-s` nor `-d` (gopoststuff.go:81-84). -/
theorem main_needSubject (env : Env) (flags : Flags) (hv : flags.versionFlag = false)
    (hs : ¬ (flags.subjectFlag ≠ "" ∨ flags.dirSubjectFlag = true)) :
    ∃ t, main env flags = Fatal t "Need to specify -d or -s option, try gopoststuff --help" ∧
      spawnerCalls t = [] ∧ statCalls t = [] ∧ readCalls t = [] ∧ currentCalls t = 0 ∧
      fatalCalls t = [] := by
  have hs' := (subject_test flags).mpr hs
  refine ⟨loggingSetup flags, ?_, ?_⟩
  · unfold main loggingSetup
    simp only [hv, Bool.false_eq_true, if_false]
    rw [if_pos (by simpa using hs')]
  · simp [loggingSetup, spawnerCalls, statCalls, readCalls, currentCalls, fatalCalls]

/-- Path 3: no positional argument (gopoststuff.go:86-89). -/
theorem main_noArgs (env : Env) (flags : Flags) (hv : flags.versionFlag = false)
    (hs : flags.subjectFlag ≠ "" ∨ flags.dirSubjectFlag = true) (ha : flags.Args = []) :
    ∃ t, main env flags = Fatal t "No filenames provided" ∧
      spawnerCalls t = [] ∧ statCalls t = [] ∧ readCalls t = [] ∧ currentCalls t = 0 ∧
      fatalCalls t = [] := by
  have hs' : ¬ (flags.subjectFlag.length = 0 ∧ flags.dirSubjectFlag = false) := by
    rw [subject_test]; exact not_not.mpr hs
  refine ⟨loggingSetup flags, ?_, ?_⟩
  · unfold main loggingSetup
    simp only [hv, Bool.false_eq_true, if_false]
    rw [if_neg (by simpa using hs'), if_pos (by simp [ha])]
  · simp [loggingSetup, spawnerCalls, statCalls, readCalls, currentCalls, fatalCalls]

/-- Path 4: a positional argument fails the loop check (gopoststuff.go:91-102). -/
theorem main_badArg (env : Env) (flags : Flags) (hv : flags.versionFlag = false)
    (hs : flags.subjectFlag ≠ "" ∨ flags.dirSubjectFlag = true)
    (hbad : ¬ ∀ arg ∈ flags.Args, argOk env flags.dirSubjectFlag arg) :
    ∃ t msg, main env flags = Fatal t msg ∧
      spawnerCalls t = [] ∧ readCalls t = [] ∧ currentCalls t = 0 ∧ fatalCalls t = [] := by
  have hs' : ¬ (flags.subjectFlag.length = 0 ∧ flags.dirSubjectFlag = false) := by
    rw [subject_test]; exact not_not.mpr hs
  have ha : flags.Args ≠ [] := by
    rintro h; apply hbad; simp [h]
  have hck : (checkArgs env flags.dirSubjectFlag flags.Args).2 ≠ none := by
    rwa [Ne, checkArgs_none_iff]
  obtain ⟨c1, c2, c3, c4⟩ := checkArgs_calls env flags.dirSubjectFlag flags.Args
  cases hr : checkArgs env flags.dirSubjectFlag flags.Args with
  | mk stats r =>
    rw [hr] at hck c1 c2 c3 c4
    cases r with
    | none => exact absurd rfl hck
    | some msg =>
      refine ⟨loggingSetup flags ++ stats, msg, ?_, ?_⟩
      · unfold main loggingSetup
        simp only [hv, Bool.false_eq_true, if_false]
        rw [if_neg (by simpa using hs'), if_neg (by simpa using ha), hr]
      · simp only at c1 c2 c3 c4
        simp [loggingSetup, spawnerCalls_append, readCalls_append, currentCalls_append, fatalCalls_append,
          spawnerCalls, readCalls, currentCalls, fatalCalls, c1, c2, c3, c4]

/-- What a valid command line means for the tests of gopoststuff.go:64-102. -/
theorem argsValid_facts (env : Env) (flags : Flags) (h : argsValid env flags) :
    flags.versionFlag = false ∧ ¬ (flags.subjectFlag.length = 0 ∧ flags.dirSubjectFlag = false) ∧
      flags.Args ≠ [] ∧
      ∃ stats, checkArgs env flags.dirSubjectFlag flags.Args = (stats, none) ∧
        statCalls stats = flags.Args ∧ spawnerCalls stats = [] ∧ readCalls stats = [] ∧
        currentCalls stats = 0 ∧ fatalCalls stats = [] := by
  obtain ⟨hv, hs, ha, hok⟩ := h
  have hnone := (checkArgs_none_iff env flags.dirSubjectFlag flags.Args).mpr hok
  have hstat := checkArgs_statCalls env flags.dirSubjectFlag flags.Args hnone
  obtain ⟨c1, c2, c3, c4⟩ := checkArgs_calls env flags.dirSubjectFlag flags.Args
  refine ⟨hv, ?_, ha, (checkArgs env flags.dirSubjectFlag flags.Args).1, ?_, hstat, c1, c2, c3, c4⟩
  · rw [subject_test]; exact not_not.mpr hs
  · exact Prod.ext rfl hnone

/-- Path 5: the current user cannot be determined (gopoststuff.go:110-113). -/
theorem main_noUser (env : Env) (flags : Flags) (h : argsValid env flags)
    (hc : flags.configFlag = "") (err : String) (hu : env.Current = .error err) :
    ∃ t, main env flags = Fatal t err ∧ spawnerCalls t = [] ∧ readCalls t = [] ∧
      fatalCalls t = [] ∧ statCalls t = flags.Args ∧ currentCalls t = 1 := by
  obtain ⟨hv, hs, ha, stats, hr, hst, c1, c2, c3, c4⟩ := argsValid_facts env flags h
  have hcf : cfgFile env flags = ([Event.Current], .error err) := by
    simp [cfgFile, hc, hu]
  refine ⟨loggingSetup flags ++ stats ++ [Event.Current], ?_, ?_⟩
  · unfold main loggingSetup
    simp only [hv, Bool.false_eq_true, if_false]
    rw [if_neg (by simpa using hs), if_neg (by simpa using ha), hr]
    simp only [hcf]
  · simp [loggingSetup, spawnerCalls_append, readCalls_append, currentCalls_append,
      fatalCalls_append, statCalls_append, spawnerCalls, readCalls, currentCalls, fatalCalls,
      statCalls, c1, c2, c3, c4, hst]

/-- Path 6: reading the config file returns an error (gopoststuff.go:119-122). -/
theorem main_readError (env : Env) (flags : Flags) (h : argsValid env flags)
    (p : String) (hp : (cfgFile env flags).2 = .ok p)
    (err : String) (hread : (env.ReadFileInto ConfigT.zero p).2 = some err) :
    ∃ t, main env flags = Fatal t err ∧ spawnerCalls t = [] ∧ readCalls t = [p] ∧
      fatalCalls t = [] ∧ statCalls t = flags.Args ∧
      currentCalls t = currentCalls (cfgFile env flags).1 := by
  obtain ⟨hv, hs, ha, stats, hr, hst, c1, c2, c3, c4⟩ := argsValid_facts env flags h
  obtain ⟨d1, d2, d3, d4⟩ := cfgFile_calls env flags
  cases hcf : cfgFile env flags with
  | mk evs res =>
    rw [hcf] at hp d1 d2 d3 d4
    simp only at hp d1 d2 d3 d4
    subst hp
    cases hrd : env.ReadFileInto ConfigT.zero p with
    | mk cfg e =>
      rw [hrd] at hread
      simp only at hread
      subst hread
      refine ⟨loggingSetup flags ++ stats ++ evs ++ [Event.Debug ("Reading config from " ++ p)]
        ++ [Event.ReadFileInto p], ?_, ?_⟩
      · unfold main loggingSetup
        simp only [hv, Bool.false_eq_true, if_false]
        rw [if_neg (by simpa using hs), if_neg (by simpa using ha), hr]
        simp only [hcf, hrd]
      · simp [loggingSetup, spawnerCalls_append, readCalls_append, currentCalls_append,
          fatalCalls_append, statCalls_append, spawnerCalls, readCalls, currentCalls, fatalCalls,
          statCalls, c1, c2, c3, c4, hst, d1, d2, d3, d4]

/-- Path 7: the CPU profile file cannot be created (gopoststuff.go:136-140). -/
theorem main_createError (env : Env) (flags : Flags) (h : argsValid env flags)
    (p : String) (hp : (cfgFile env flags).2 = .ok p)
    (hread : (env.ReadFileInto ConfigT.zero p).2 = none)
    (hcpu : flags.cpuProfileFlag ≠ "") (err : String)
    (hcreate : env.Create flags.cpuProfileFlag = some err) :
    terminatesFatallyWith (main env flags) err ∧ spawnerCalls (main env flags).trace = [] ∧
      readCalls (main env flags).trace = [p] ∧ statCalls (main env flags).trace = flags.Args ∧
      currentCalls (main env flags).trace = currentCalls (cfgFile env flags).1 := by
  obtain ⟨hv, hs, ha, stats, hr, hst, c1, c2, c3, c4⟩ := argsValid_facts env flags h
  obtain ⟨d1, d2, d3, d4⟩ := cfgFile_calls env flags
  cases hcf : cfgFile env flags with
  | mk evs res =>
    rw [hcf] at hp d1 d2 d3 d4
    simp only at hp d1 d2 d3 d4
    subst hp
    cases hrd : env.ReadFileInto ConfigT.zero p with
    | mk cfg e =>
      rw [hrd] at hread
      simp only at hread
      subst hread
      unfold main
      simp only [hv, Bool.false_eq_true, if_false]
      rw [if_neg (by simpa using hs), if_neg (by simpa using ha), hr]
      simp only [hcf, hrd]
      cases flags.allCpuFlag <;> cases flags.verboseFlag <;>
        simp [hcpu, hcreate, terminatesFatallyWith, Fatal_exit, Fatal_fatalMessage, Fatal_trace,
          spawnerCalls_append, readCalls_append, fatalCalls_append, statCalls_append,
          currentCalls_append, spawnerCalls, readCalls, fatalCalls, statCalls, currentCalls,
          c1, c2, c3, c4, hst, d1, d2, d3, d4]

/-- Path 8: every check passes and `Spawner` runs (gopoststuff.go:146-152). -/
theorem main_posted (env : Env) (flags : Flags) (h : argsValid env flags)
    (p : String) (hp : (cfgFile env flags).2 = .ok p)
    (hread : (env.ReadFileInto ConfigT.zero p).2 = none)
    (hcreate : flags.cpuProfileFlag ≠ "" → env.Create flags.cpuProfileFlag = none) :
    (main env flags).exit = 0 ∧
      spawnerCalls (main env flags).trace
        = [(fixDefaults (env.ReadFileInto ConfigT.zero p).1, flags.Args)] ∧
      readCalls (main env flags).trace = [p] ∧
      fatalCalls (main env flags).trace = [] ∧
      statCalls (main env flags).trace = flags.Args ∧
      currentCalls (main env flags).trace = currentCalls (cfgFile env flags).1 ∧
      (main env flags).reported
        = some (env.Spawner flags (fixDefaults (env.ReadFileInto ConfigT.zero p).1) flags.Args) := by
  obtain ⟨hv, hs, ha, stats, hr, hst, c1, c2, c3, c4⟩ := argsValid_facts env flags h
  obtain ⟨d1, d2, d3, d4⟩ := cfgFile_calls env flags
  cases hcf : cfgFile env flags with
  | mk evs res =>
    rw [hcf] at hp d1 d2 d3 d4
    simp only at hp d1 d2 d3 d4
    subst hp
    cases hrd : env.ReadFileInto ConfigT.zero p with
    | mk cfg e =>
      rw [hrd] at hread
      simp only at hread
      subst hread
      unfold main fixDefaults
      simp only [hv, Bool.false_eq_true, if_false]
      rw [if_neg (by simpa using hs), if_neg (by simpa using ha), hr]
      simp only [hcf, hrd]
      by_cases hcpu : flags.cpuProfileFlag = ""
      · cases flags.allCpuFlag <;> cases flags.verboseFlag <;>
          simp [hcpu, spawnerCalls_append, readCalls_append, currentCalls_append,
            fatalCalls_append, statCalls_append, spawnerCalls, readCalls, currentCalls,
            fatalCalls, statCalls, c1, c2, c3, c4, hst, d1, d2, d3, d4]
      · cases flags.allCpuFlag <;> cases flags.verboseFlag <;>
          simp [hcpu, hcreate hcpu, spawnerCalls_append, readCalls_append, currentCalls_append,
            fatalCalls_append, statCalls_append, spawnerCalls, readCalls, currentCalls,
            fatalCalls, statCalls, c1, c2, c3, c4, hst, d1, d2, d3, d4]

/-- The block setting `cfgFile` fails only when `-c` is empty and the user lookup fails. -/
theorem cfgFile_error (env : Env) (flags : Flags) (err : String)
    (h : (cfgFile env flags).2 = .error err) :
    flags.configFlag = "" ∧ env.Current = .error err := by
  unfold cfgFile at h
  by_cases hc : flags.configFlag.length > 0
  · simp [hc] at h
  · have hc0 : flags.configFlag = "" := (length_eq_zero_iff _).mp (by omega)
    cases hu : env.Current with
    | error e => simp [hc, hu] at h; exact ⟨hc0, by rw [h]⟩
    | ok u => simp [hc, hu] at h

/-- With `-c` non-empty, `cfgFile` is that path and no call is made. -/
theorem cfgFile_flag (env : Env) (flags : Flags) (hc : flags.configFlag ≠ "") :
    cfgFile env flags = ([], .ok flags.configFlag) := by
  have : flags.configFlag.length > 0 := by
    rcases Nat.eq_zero_or_pos flags.configFlag.length with h | h
    · exact absurd ((length_eq_zero_iff _).mp h) hc
    · exact h
  simp [cfgFile, this]

/-- With `-c` empty and a known user, `cfgFile` is the joined path after one lookup. -/
theorem cfgFile_home (env : Env) (flags : Flags) (hc : flags.configFlag = "") (u : User)
    (hu : env.Current = .ok u) :
    cfgFile env flags = ([Event.Current], .ok (env.Join [u.HomeDir, ".gopoststuff.conf"])) := by
  simp [cfgFile, hc, hu]

/-- Characterisation of the runs of `main` that call `Spawner`. -/
theorem invokesSpawner_iff (env : Env) (flags : Flags) :
    invokesSpawner (main env flags) ↔ reachesSpawner env flags := by
  constructor
  · intro hinv
    by_contra hno
    apply hinv
    by_cases hv : flags.versionFlag = true
    · rw [main_version env flags hv]; rfl
    have hv : flags.versionFlag = false := by simpa using hv
    by_cases hs : flags.subjectFlag ≠ "" ∨ flags.dirSubjectFlag = true
    swap
    · obtain ⟨t, ht, h1, -⟩ := main_needSubject env flags hv hs
      simp [ht, Fatal_trace, spawnerCalls_append, spawnerCalls, h1]
    by_cases hok : ∀ arg ∈ flags.Args, argOk env flags.dirSubjectFlag arg
    swap
    · obtain ⟨t, msg, ht, h1, -⟩ := main_badArg env flags hv hs hok
      simp [ht, Fatal_trace, spawnerCalls_append, spawnerCalls, h1]
    by_cases ha : flags.Args = []
    · obtain ⟨t, ht, h1, -⟩ := main_noArgs env flags hv hs ha
      simp [ht, Fatal_trace, spawnerCalls_append, spawnerCalls, h1]
    have hvalid : argsValid env flags := ⟨hv, hs, ha, hok⟩
    cases hcf : (cfgFile env flags).2 with
    | error err =>
      obtain ⟨hc, hu⟩ := cfgFile_error env flags err hcf
      obtain ⟨t, ht, h1, -⟩ := main_noUser env flags hvalid hc err hu
      simp [ht, Fatal_trace, spawnerCalls_append, spawnerCalls, h1]
    | ok p =>
      cases hrd : (env.ReadFileInto ConfigT.zero p).2 with
      | some err =>
        obtain ⟨t, ht, h1, -⟩ := main_readError env flags hvalid p hcf err hrd
        simp [ht, Fatal_trace, spawnerCalls_append, spawnerCalls, h1]
      | none =>
        by_cases hcpu : flags.cpuProfileFlag ≠ "" → env.Create flags.cpuProfileFlag = none
        · exact absurd ⟨hvalid, p, hcf, hrd, hcpu⟩ hno
        · have hne : flags.cpuProfileFlag ≠ "" := fun h => hcpu (fun h2 => absurd h h2)
          cases hcr : env.Create flags.cpuProfileFlag with
          | none => exact absurd (fun _ => hcr) hcpu
          | some err => exact (main_createError env flags hvalid p hcf hrd hne err hcr).2.1
  · rintro ⟨hvalid, p, hp, hrd, hcpu⟩
    have := (main_posted env flags hvalid p hp hrd hcpu).2.1
    simp [invokesSpawner, this]

/-- Once `cfgFile` is set on a valid command line, the config file is read exactly
once, from that path, whatever happens afterwards. -/
theorem main_reads (env : Env) (flags : Flags) (h : argsValid env flags)
    (p : String) (hp : (cfgFile env flags).2 = .ok p) :
    readCalls (main env flags).trace = [p] ∧
      currentCalls (main env flags).trace = currentCalls (cfgFile env flags).1 := by
  cases hrd : (env.ReadFileInto ConfigT.zero p).2 with
  | some err =>
    obtain ⟨t, ht, -, h2, -, -, h5⟩ := main_readError env flags h p hp err hrd
    simp [ht, Fatal_trace, readCalls_append, currentCalls_append, readCalls, currentCalls, h2, h5]
  | none =>
    by_cases hcpu : flags.cpuProfileFlag ≠ "" → env.Create flags.cpuProfileFlag = none
    · obtain ⟨-, -, h3, -, -, h6, -⟩ := main_posted env flags h p hp hrd hcpu
      exact ⟨h3, h6⟩
    · have hne : flags.cpuProfileFlag ≠ "" := fun h => hcpu (fun h2 => absurd h h2)
      cases hcr : env.Create flags.cpuProfileFlag with
      | none => exact absurd (fun _ => hcr) hcpu
      | some err =>
        obtain ⟨-, -, h3, -, h5⟩ := main_createError env flags h p hp hrd hne err hcr
        exact ⟨h3, h5⟩

/-! ## The claims -/

/-- C1, as stated, fails: with `-version` set, a positional argument that fails
stat does not make `main` terminate fatally; `main` exits with status 0. -/
theorem C1_version_run_is_not_fatal :
    (∃ arg ∈ cmdVersion.Args, statOk env0 arg = false) ∧
      ¬ terminatesFatally (main env0 cmdVersion) ∧ (main env0 cmdVersion).exit = 0 := by
  decide

/-- C1 (amended): if `main` invokes `Spawner`, then every positional argument was
stat-ed, without error, and is a directory when `-d` is set.  A positional argument
that fails stat, or that is not a directory while `-d` is set, keeps `main` from
invoking `Spawner`: with `-version` unset `main` terminates fatally, with `-version`
set it exits with status 0 without stat-ing any path. -/
theorem C1_spawner_only_after_checked_args (env : Env) (flags : Flags) :
    (invokesSpawner (main env flags) →
        statCalls (main env flags).trace = flags.Args ∧
        ∀ arg ∈ flags.Args, statOk env arg = true ∧
          (flags.dirSubjectFlag = true → isDirectory env arg = true)) ∧
      ((∃ arg ∈ flags.Args, statOk env arg = false ∨
            (flags.dirSubjectFlag = true ∧ isDirectory env arg = false)) →
        ¬ invokesSpawner (main env flags) ∧
        (flags.versionFlag = false → terminatesFatally (main env flags)) ∧
        (flags.versionFlag = true →
          (main env flags).exit = 0 ∧ statCalls (main env flags).trace = [])) := by
  have hfirst : invokesSpawner (main env flags) →
      statCalls (main env flags).trace = flags.Args ∧
      ∀ arg ∈ flags.Args, argOk env flags.dirSubjectFlag arg := by
    intro hinv
    obtain ⟨hvalid, p, hp, hrd, hcpu⟩ := (invokesSpawner_iff env flags).mp hinv
    exact ⟨(main_posted env flags hvalid p hp hrd hcpu).2.2.2.2.1, hvalid.2.2.2⟩
  refine ⟨hfirst, ?_⟩
  rintro ⟨arg, harg, hbad⟩
  have hnot : ¬ ∀ a ∈ flags.Args, argOk env flags.dirSubjectFlag a := by
    intro hall
    obtain ⟨h1, h2⟩ := hall arg harg
    rcases hbad with hb | ⟨hd, hb⟩
    · rw [h1] at hb; exact Bool.noConfusion hb
    · rw [h2 hd] at hb; exact Bool.noConfusion hb
  refine ⟨fun hinv => hnot (hfirst hinv).2, ?_, ?_⟩
  · intro hv
    by_cases hs : flags.subjectFlag ≠ "" ∨ flags.dirSubjectFlag = true
    · obtain ⟨t, msg, ht, -, -, -, h4⟩ := main_badArg env flags hv hs hnot
      rw [ht]
      exact terminatesFatally_of_with _ msg (Fatal_terminatesFatallyWith t msg h4)
    · obtain ⟨t, ht, -, -, -, -, h5⟩ := main_needSubject env flags hv hs
      rw [ht]
      exact terminatesFatally_of_with _ _ (Fatal_terminatesFatallyWith t _ h5)
  · intro hv
    rw [main_version env flags hv]
    exact ⟨rfl, rfl⟩

/-- C1, at concrete command lines: `-d /data` reaches `Spawner` with its argument
checked; `-d /data /data/a.bin` ends fatally on the second argument. -/
theorem C1_spawner_only_after_checked_args_witness :
    invokesSpawner (main env0 cmdDir) ∧
      (statCalls (main env0 cmdDir).trace = cmdDir.Args ∧
        ∀ arg ∈ cmdDir.Args, statOk env0 arg = true ∧
          (cmdDir.dirSubjectFlag = true → isDirectory env0 arg = true)) ∧
      cmdDirOnFile.versionFlag = false ∧
      ¬ invokesSpawner (main env0 cmdDirOnFile) ∧ terminatesFatally (main env0 cmdDirOnFile) :=
  have hbad : ∃ arg ∈ cmdDirOnFile.Args, statOk env0 arg = false ∨
      (cmdDirOnFile.dirSubjectFlag = true ∧ isDirectory env0 arg = false) := by decide
  ⟨by decide,
   (C1_spawner_only_after_checked_args env0 cmdDir).1 (by decide),
   by decide,
   ((C1_spawner_only_after_checked_args env0 cmdDirOnFile).2 hbad).1,
   ((C1_spawner_only_after_checked_args env0 cmdDirOnFile).2 hbad).2.1 (by decide)⟩

/-- C2: when the configuration read from the config file `p` has
`Global.ChunkSize` equal to 0, the configuration visible to `Spawner` has
`Global.ChunkSize` equal to 10240, and is otherwise the configuration read. -/
theorem C2_chunk_size_default (env : Env) (flags : Flags) (p : String)
    (read cfg : ConfigT) (filenames : List String)
    (hp : p ∈ readCalls (main env flags).trace)
    (hread : env.ReadFileInto ConfigT.zero p = (read, none))
    (hzero : read.Global.ChunkSize = 0)
    (hcall : (cfg, filenames) ∈ spawnerCalls (main env flags).trace) :
    cfg.Global.ChunkSize = 10240 ∧
      cfg = { read with Global := { read.Global with ChunkSize := 10240 } } := by
  have hinv : invokesSpawner (main env flags) := by
    intro h; rw [h] at hcall; exact List.not_mem_nil _ hcall
  obtain ⟨hvalid, q, hq, hrd, hcpu⟩ := (invokesSpawner_iff env flags).mp hinv
  obtain ⟨-, h2, h3, -⟩ := main_posted env flags hvalid q hq hrd hcpu
  rw [h3] at hp
  rw [h2] at hcall
  have hpq : p = q := by simpa using hp
  subst hpq
  have hcfg : cfg = fixDefaults read := by
    have := List.mem_singleton.mp hcall
    rw [hread] at this
    exact (Prod.ext_iff.mp this).1
  subst hcfg
  simp [fixDefaults, hzero]

/-- C2, at a concrete run: the config file of `env0` leaves the chunk size unset. -/
theorem C2_chunk_size_default_witness :
    "/home/u/.gopoststuff.conf" ∈ readCalls (main env0 cmdSubject).trace ∧
      (env0.ReadFileInto ConfigT.zero "/home/u/.gopoststuff.conf").1.Global.ChunkSize = 0 ∧
      (fixDefaults (env0.ReadFileInto ConfigT.zero "/home/u/.gopoststuff.conf").1).Global.ChunkSize
        = 10240 :=
  have hp : "/home/u/.gopoststuff.conf" ∈ readCalls (main env0 cmdSubject).trace := by decide
  have hread : env0.ReadFileInto ConfigT.zero "/home/u/.gopoststuff.conf"
      = ((env0.ReadFileInto ConfigT.zero "/home/u/.gopoststuff.conf").1, none) := by decide
  have hzero : (env0.ReadFileInto ConfigT.zero "/home/u/.gopoststuff.conf").1.Global.ChunkSize = 0 := by
    decide
  have hcall : (fixDefaults (env0.ReadFileInto ConfigT.zero "/home/u/.gopoststuff.conf").1,
      cmdSubject.Args) ∈ spawnerCalls (main env0 cmdSubject).trace := by decide
  ⟨hp, hzero,
   (C2_chunk_size_default env0 cmdSubject _ _ _ _ hp hread hzero hcall).1⟩

/-- C3, as stated, fails: with both `-s holiday` and `-d` supplied `main` does not
terminate fatally and invokes `Spawner`. -/
theorem C3_both_sources_reach_spawner :
    ¬ exactlyOneSubjectSource cmdBoth ∧ cmdBoth.subjectFlag ≠ "" ∧ cmdBoth.dirSubjectFlag = true ∧
      invokesSpawner (main env0 cmdBoth) ∧ ¬ terminatesFatally (main env0 cmdBoth) := by
  decide

/-- C3 (amended): at least one of a subject string (`-s` non-empty) and
directory-subject mode (`-d`) must be supplied.  `main` invokes `Spawner` only if at
least one of the two is supplied; supplying neither, with `-version` unset,
terminates fatally before any path is stat-ed, the config file is read or `Spawner`
is invoked. -/
theorem C3_subject_source_required (env : Env) (flags : Flags) :
    (invokesSpawner (main env flags) →
        flags.subjectFlag ≠ "" ∨ flags.dirSubjectFlag = true) ∧
      (flags.versionFlag = false → flags.subjectFlag = "" → flags.dirSubjectFlag = false →
        terminatesFatallyWith (main env flags)
            "Need to specify -d or -s option, try gopoststuff --help" ∧
          ¬ invokesSpawner (main env flags) ∧
          statCalls (main env flags).trace = [] ∧ readCalls (main env flags).trace = []) := by
  constructor
  · intro hinv
    exact ((invokesSpawner_iff env flags).mp hinv).1.2.1
  · intro hv hs hd
    have hneither : ¬ (flags.subjectFlag ≠ "" ∨ flags.dirSubjectFlag = true) := by
      simp [hs, hd]
    obtain ⟨t, ht, h1, h2, h3, -, h5⟩ := main_needSubject env flags hv hneither
    rw [ht]
    refine ⟨Fatal_terminatesFatallyWith t _ h5, Fatal_not_invokesSpawner t _ h1, ?_, ?_⟩
    · simp [Fatal_trace, statCalls_append, statCalls, h2]
    · simp [Fatal_trace, readCalls_append, readCalls, h3]

/-- C3, at concrete command lines: `-d /data` alone reaches `Spawner`, and a command
line with neither `-s` nor `-d` ends fatally. -/
theorem C3_subject_source_required_witness :
    invokesSpawner (main env0 cmdDir) ∧
      (cmdDir.subjectFlag ≠ "" ∨ cmdDir.dirSubjectFlag = true) ∧
      terminatesFatallyWith (main env0 cmdNoSubject)
        "Need to specify -d or -s option, try gopoststuff --help" ∧
      ¬ invokesSpawner (main env0 cmdNoSubject) :=
  ⟨by decide,
   (C3_subject_source_required env0 cmdDir).1 (by decide),
   ((C3_subject_source_required env0 cmdNoSubject).2 (by decide) (by decide) (by decide)).1,
   ((C3_subject_source_required env0 cmdNoSubject).2 (by decide) (by decide) (by decide)).2.1⟩

/-- C4: on a command line that passes argument validation, if reading the config
file `cfgFile` returns an error then `main` terminates fatally with that error right
after the read, and `Spawner` is not invoked. -/
theorem C4_config_error_is_fatal (env : Env) (flags : Flags) (p err : String)
    (hvalid : argsValid env flags) (hp : (cfgFile env flags).2 = .ok p)
    (hread : (env.ReadFileInto ConfigT.zero p).2 = some err) :
    terminatesFatallyWith (main env flags) err ∧ ¬ invokesSpawner (main env flags) ∧
      readCalls (main env flags).trace = [p] ∧ (main env flags).reported = none := by
  obtain ⟨t, ht, h1, h2, h3, -⟩ := main_readError env flags hvalid p hp err hread
  rw [ht]
  refine ⟨Fatal_terminatesFatallyWith t err h3, Fatal_not_invokesSpawner t err h1, ?_, rfl⟩
  simp [Fatal_trace, readCalls_append, readCalls, h2]

/-- C4, at a concrete command line whose `-c` names a missing file. -/
theorem C4_config_error_is_fatal_witness :
    argsValid env0 cmdBadConfig ∧
      terminatesFatallyWith (main env0 cmdBadConfig) "open: no such file or directory" ∧
      ¬ invokesSpawner (main env0 cmdBadConfig) :=
  have h := C4_config_error_is_fatal env0 cmdBadConfig "/etc/missing.conf"
    "open: no such file or directory" (by decide) (by rfl) (by decide)
  ⟨by decide, h.1, h.2.1⟩

/-- C5, as stated, fails: a run that reaches `Spawner` and whose posting run reports
one failed job still ends with exit status 0. -/
theorem C5_failed_job_exit_zero :
    invokesSpawner (main env0 cmdSubject) ∧ failedJobs (main env0 cmdSubject) = 1 ∧
      (main env0 cmdSubject).exit = 0 ∧
      ¬ ((main env0 cmdSubject).exit = 0 ↔ failedJobs (main env0 cmdSubject) = 0) := by
  decide

/-- C5 (amended): in every run in which `main` reaches `Spawner` and `Spawner`
returns, the exit status of `main` is 0, whatever the posting run reported: `main`
discards the outcome of `Spawner(flag.Args())`. -/
theorem C5_exit_status_after_spawner (env : Env) (flags : Flags)
    (hinv : invokesSpawner (main env flags)) :
    (main env flags).exit = 0 ∧
      ∃ cfg, (main env flags).reported = some (env.Spawner flags cfg flags.Args) := by
  obtain ⟨hvalid, p, hp, hrd, hcpu⟩ := (invokesSpawner_iff env flags).mp hinv
  obtain ⟨h1, -, -, -, -, -, h7⟩ := main_posted env flags hvalid p hp hrd hcpu
  exact ⟨h1, _, h7⟩

/-- C5, at a concrete run whose posting run reports a failed job. -/
theorem C5_exit_status_after_spawner_witness :
    invokesSpawner (main env0 cmdSubject) ∧ (main env0 cmdSubject).exit = 0 ∧
      failedJobs (main env0 cmdSubject) = 1 :=
  ⟨by decide, (C5_exit_status_after_spawner env0 cmdSubject (by decide)).1, by decide⟩

/-- C6, as stated, fails: with no flag and no positional argument the fatal message
is the one of the `-d`/`-s` check, not "No filenames provided". -/
theorem C6_empty_command_line_message :
    cmdEmpty.versionFlag = false ∧ cmdEmpty.Args = [] ∧
      terminatesFatallyWith (main env0 cmdEmpty)
        "Need to specify -d or -s option, try gopoststuff --help" ∧
      ¬ terminatesFatallyWith (main env0 cmdEmpty) "No filenames provided" := by
  decide

/-- C6 (amended): with `-version` unset and no positional argument, `main`
terminates fatally without stat-ing a path, reading the config file or invoking
`Spawner`; the message is "No filenames provided" when `-s` is non-empty or `-d` is
set, and the message of the `-d`/`-s` check otherwise.  Hence `Spawner` is never
invoked with an empty path list. -/
theorem C6_no_filenames_is_fatal (env : Env) (flags : Flags) :
    (flags.versionFlag = false → flags.Args = [] →
        terminatesFatally (main env flags) ∧ ¬ invokesSpawner (main env flags) ∧
        readCalls (main env flags).trace = [] ∧ statCalls (main env flags).trace = [] ∧
        ((flags.subjectFlag ≠ "" ∨ flags.dirSubjectFlag = true) →
          terminatesFatallyWith (main env flags) "No filenames provided") ∧
        (¬ (flags.subjectFlag ≠ "" ∨ flags.dirSubjectFlag = true) →
          terminatesFatallyWith (main env flags)
            "Need to specify -d or -s option, try gopoststuff --help")) ∧
      ∀ cfg, (cfg, []) ∉ spawnerCalls (main env flags).trace := by
  constructor
  · intro hv ha
    by_cases hs : flags.subjectFlag ≠ "" ∨ flags.dirSubjectFlag = true
    · obtain ⟨t, ht, h1, h2, h3, -, h5⟩ := main_noArgs env flags hv hs ha
      rw [ht]
      have hw := Fatal_terminatesFatallyWith t "No filenames provided" h5
      refine ⟨terminatesFatally_of_with _ _ hw, Fatal_not_invokesSpawner t _ h1, ?_, ?_,
        fun _ => hw, fun h => absurd hs h⟩
      · simp [Fatal_trace, readCalls_append, readCalls, h3]
      · simp [Fatal_trace, statCalls_append, statCalls, h2]
    · obtain ⟨t, ht, h1, h2, h3, -, h5⟩ := main_needSubject env flags hv hs
      rw [ht]
      have hw := Fatal_terminatesFatallyWith t
        "Need to specify -d or -s option, try gopoststuff --help" h5
      refine ⟨terminatesFatally_of_with _ _ hw, Fatal_not_invokesSpawner t _ h1, ?_, ?_,
        fun h => absurd h hs, fun _ => hw⟩
      · simp [Fatal_trace, readCalls_append, readCalls, h3]
      · simp [Fatal_trace, statCalls_append, statCalls, h2]
  · intro cfg hmem
    have hinv : invokesSpawner (main env flags) := by
      intro h; rw [h] at hmem; exact List.not_mem_nil _ hmem
    obtain ⟨hvalid, p, hp, hrd, hcpu⟩ := (invokesSpawner_iff env flags).mp hinv
    rw [(main_posted env flags hvalid p hp hrd hcpu).2.1] at hmem
    have := List.mem_singleton.mp hmem
    exact hvalid.2.2.1 (Prod.ext_iff.mp this).2.symm

/-- C6, at the concrete command line `-s holiday` without file names. -/
theorem C6_no_filenames_is_fatal_witness :
    cmdNoFiles.versionFlag = false ∧ cmdNoFiles.Args = [] ∧
      terminatesFatallyWith (main env0 cmdNoFiles) "No filenames provided" ∧
      readCalls (main env0 cmdNoFiles).trace = [] ∧ ¬ invokesSpawner (main env0 cmdNoFiles) :=
  have h := (C6_no_filenames_is_fatal env0 cmdNoFiles).1 (by decide) (by decide)
  ⟨by decide, by decide, h.2.2.2.2.1 (by decide), h.2.2.1, h.2.1⟩

/-- C7: on a command line that passes argument validation, a non-empty `-c` makes
`main` read the config from exactly that path without looking up the current user;
otherwise the config is read from `filepath.Join(u.HomeDir, ".gopoststuff.conf")` for
the current user `u`, and a failure to determine the current user terminates fatally
without reading a config file or invoking `Spawner`. -/
theorem C7_config_file_selection (env : Env) (flags : Flags) (hvalid : argsValid env flags) :
    (flags.configFlag ≠ "" →
        readCalls (main env flags).trace = [flags.configFlag] ∧
        currentCalls (main env flags).trace = 0) ∧
      (flags.configFlag = "" → ∀ u, env.Current = .ok u →
        readCalls (main env flags).trace = [env.Join [u.HomeDir, ".gopoststuff.conf"]] ∧
        currentCalls (main env flags).trace = 1) ∧
      (flags.configFlag = "" → ∀ err, env.Current = .error err →
        terminatesFatallyWith (main env flags) err ∧ ¬ invokesSpawner (main env flags) ∧
        readCalls (main env flags).trace = []) := by
  refine ⟨?_, ?_, ?_⟩
  · intro hc
    have hcf := cfgFile_flag env flags hc
    have := main_reads env flags hvalid flags.configFlag (by rw [hcf])
    rw [hcf] at this
    simpa [currentCalls] using this
  · intro hc u hu
    have hcf := cfgFile_home env flags hc u hu
    have := main_reads env flags hvalid (env.Join [u.HomeDir, ".gopoststuff.conf"]) (by rw [hcf])
    rw [hcf] at this
    simpa [currentCalls] using this
  · intro hc err hu
    obtain ⟨t, ht, h1, h2, h3, -⟩ := main_noUser env flags hvalid hc err hu
    rw [ht]
    refine ⟨Fatal_terminatesFatallyWith t err h3, Fatal_not_invokesSpawner t err h1, ?_⟩
    simp [Fatal_trace, readCalls_append, readCalls, h2]

/-- C7, at concrete command lines: with `-c`, without `-c`, and without a current user. -/
theorem C7_config_file_selection_witness :
    argsValid env0 cmdFull ∧
      (readCalls (main env0 cmdFull).trace = ["/etc/gps.conf"] ∧
        currentCalls (main env0 cmdFull).trace = 0) ∧
      (readCalls (main env0 cmdSubject).trace = ["/home/u/.gopoststuff.conf"] ∧
        currentCalls (main env0 cmdSubject).trace = 1) ∧
      terminatesFatallyWith (main envNoUser cmdSubject) "user: Current not implemented" :=
  ⟨by decide,
   (C7_config_file_selection env0 cmdFull (by decide)).1 (by decide),
   (C7_config_file_selection env0 cmdSubject (by decide)).2.1 (by decide)
     { HomeDir := "/home/u" } (by rfl),
   ((C7_config_file_selection envNoUser cmdSubject (by decide)).2.2 (by decide)
     "user: Current not implemented" (by rfl)).1⟩

/-- C8: with `-version` set, whatever the other flags and positional arguments,
`main` prints the version line "Version:  0.3.0-git" and exits with status 0; no
path is stat-ed, no config file is read and `Spawner` is not invoked. -/
theorem C8_version_exits_first (env : Env) (flags : Flags) (hv : flags.versionFlag = true) :
    (main env flags).trace = [Event.Println (Println ["Version: ", GPS_VERSION])] ∧
      printed (main env flags).trace = ["Version:  " ++ GPS_VERSION ++ "\n"] ∧
      GPS_VERSION = "0.3.0-git" ∧
      (main env flags).exit = 0 ∧
      statCalls (main env flags).trace = [] ∧ readCalls (main env flags).trace = [] ∧
      currentCalls (main env flags).trace = 0 ∧ fatalCalls (main env flags).trace = [] ∧
      ¬ invokesSpawner (main env flags) := by
  rw [main_version env flags hv]
  decide

/-- C8, at the concrete command line `-version -s holiday /nonexistent`. -/
theorem C8_version_exits_first_witness :
    cmdVersion.versionFlag = true ∧ (main env0 cmdVersion).exit = 0 ∧
      printed (main env0 cmdVersion).trace = ["Version:  0.3.0-git\n"] ∧
      statCalls (main env0 cmdVersion).trace = [] :=
  have h := C8_version_exits_first env0 cmdVersion (by decide)
  ⟨by decide, h.2.2.2.1, h.2.1, h.2.2.2.2.1⟩

/-- C9: with `-version` unset, `-s` non-empty or `-d` set, a non-empty list of
positional arguments that all stat without error (and are directories when `-d` is
set), `cfgFile` set to `p`, a config read from `p` without error and, when
`-cpuprofile` is non-empty, the profile file created without error, `main` invokes
`Spawner` exactly once and passes it the positional arguments unchanged. -/
theorem C9_valid_run_invokes_spawner_once (env : Env) (flags : Flags) (p : String)
    (hv : flags.versionFlag = false)
    (hs : flags.subjectFlag ≠ "" ∨ flags.dirSubjectFlag = true)
    (ha : flags.Args ≠ [])
    (hok : ∀ arg ∈ flags.Args, statOk env arg = true ∧
      (flags.dirSubjectFlag = true → isDirectory env arg = true))
    (hp : (cfgFile env flags).2 = .ok p)
    (hread : (env.ReadFileInto ConfigT.zero p).2 = none)
    (hcreate : flags.cpuProfileFlag ≠ "" → env.Create flags.cpuProfileFlag = none) :
    (spawnerCalls (main env flags).trace).length = 1 ∧
      (spawnerCalls (main env flags).trace).map Prod.snd = [flags.Args] ∧
      spawnerCalls (main env flags).trace
        = [(fixDefaults (env.ReadFileInto ConfigT.zero p).1, flags.Args)] ∧
      (main env flags).exit = 0 := by
  obtain ⟨h1, h2, -⟩ := main_posted env flags ⟨hv, hs, ha, hok⟩ p hp hread hcreate
  rw [h2]
  exact ⟨rfl, rfl, rfl, h1⟩

/-- C9, at a concrete command line with two arguments, `-c`, `-cpuprofile` and `-allcpus`. -/
theorem C9_valid_run_invokes_spawner_once_witness :
    (spawnerCalls (main env0 cmdFull).trace).map Prod.snd = [["/data", "/data/a.bin"]] ∧
      (spawnerCalls (main env0 cmdFull).trace).length = 1 :=
  have h := C9_valid_run_invokes_spawner_once env0 cmdFull "/etc/gps.conf" (by decide)
    (by decide) (by decide) (by decide) (by rfl) (by decide) (by decide)
  ⟨h.2.1, h.1⟩

end GoPostStuff
